import Mathlib

/-
Shallow embedding of the Flowise request-authorization gate:

* the simplified authentication middleware installed in App.config
  (packages/server/src/index.ts, lines 218-281): path classification by the
  two regexes URL_CASE_INSENSITIVE_REGEX and URL_CASE_SENSITIVE_REGEX
  (both testing for the unanchored substring "/api/v1/"), the whitelist
  prefix check, the X-Forwarded-Email header branch, and the exact
  JSON error responses;
* the FlowiseUserService.findOrCreateUserByEmail operation
  (packages/server/src/services/flowise-user/index.ts) over a list-based
  user store, with the unique-email constraint of the FlowiseUser entity
  (packages/server/src/database/entities/FlowiseUser.ts) enforced at save
  time, exactly as a relational unique column would;
* an interleaving semantics for two concurrent findOrCreateUserByEmail
  calls, each split into its two storage round-trips (findOneBy, save),
  to study races on a previously-unseen email.
-/

namespace FlowiseAuth

/-- ASCII lower-casing of one character, the case folding performed by a
case-insensitive JavaScript regex over an ASCII pattern. -/
def asciiLower (c : Char) : Char :=
  if 'A' ≤ c ∧ c ≤ 'Z' then Char.ofNat (c.toNat + 32) else c

/-- Boolean test that the first list is an initial segment of the second
(the semantics of String.prototype.startsWith on the underlying chars). -/
def leadsList : List Char → List Char → Bool
  | [], _ => true
  | _ :: _, [] => false
  | a :: as, b :: bs => a == b && leadsList as bs

/-- Boolean test that the pattern occurs as a contiguous substring anywhere
in the text: the semantics of an unanchored literal regex test. -/
def hasSubList (pat : List Char) : List Char → Bool
  | [] => leadsList pat []
  | c :: rest => leadsList pat (c :: rest) || hasSubList pat rest

/-- Test of URL_CASE_SENSITIVE_REGEX from index.ts line 220: the regex
matches iff "/api/v1/" occurs as a substring of the path. -/
def urlCaseSensitiveTest (path : String) : Bool :=
  hasSubList "/api/v1/".data path.data

/-- Test of URL_CASE_INSENSITIVE_REGEX from index.ts line 219: with an
all-ASCII lowercase pattern, a case-insensitive regex matches iff the
pattern occurs as a substring of the ASCII-lowercased path. -/
def urlCaseInsensitiveTest (path : String) : Bool :=
  hasSubList "/api/v1/".data (path.data.map asciiLower)

/-- Failure of a storage operation.  The only constraint in the FlowiseUser
entity is the unique column on email. -/
inductive StoreError
  | uniqueViolation

/-- The FlowiseUser entity: a generated id, the unique email column, and
the two TypeORM-managed date columns (timestamps abstracted to Nat). -/
structure FlowiseUser where
  id : Nat
  email : String
  createdDate : Nat
  updatedDate : Nat

/-- The user table: the state behind the FlowiseUser repository. -/
abbrev UserStore := List FlowiseUser

/-- Embedding of userRepository.findOneBy with an email filter: the first
stored record whose email column equals the argument, if any. -/
def findOneByEmail (s : UserStore) (e : String) : Option FlowiseUser :=
  s.find? (fun u => u.email == e)

/-- Embedding of userRepository.save on a fresh entity whose email is set:
the storage layer rejects the insert when the unique email constraint is
violated; otherwise it assigns a fresh id and the date columns and appends
the record. -/
def saveNewUser (s : UserStore) (e : String) (now : Nat) :
    Except StoreError (FlowiseUser × UserStore) :=
  if s.any (fun u => u.email == e) then .error .uniqueViolation
  else
    let u : FlowiseUser := { id := s.length, email := e, createdDate := now, updatedDate := now }
    .ok (u, s ++ [u])

/-- Embedding of FlowiseUserService.findOrCreateUserByEmail
(services/flowise-user/index.ts lines 14-24): look the email up; if a
record exists return it (and touch nothing); otherwise save a new record
with that email and return the saved record. -/
def findOrCreateUserByEmail (s : UserStore) (e : String) (now : Nat) :
    Except StoreError (FlowiseUser × UserStore) :=
  match findOneByEmail s e with
  | some u => .ok (u, s)
  | none => saveNewUser s e now

/-- Number of records in the store carrying a given email. -/
def countEmail (s : UserStore) (e : String) : Nat :=
  (s.filter (fun u => u.email == e)).length

lemma leadsList_map (f : Char → Char) :
    ∀ pat t, leadsList pat t = true → leadsList (pat.map f) (t.map f) = true := by
  intro pat
  induction pat with
  | nil => intro t _; simp [leadsList]
  | cons a as ih =>
    intro t h
    cases t with
    | nil => simp [leadsList] at h
    | cons b bs =>
      simp [leadsList, Bool.and_eq_true] at h ⊢
      obtain ⟨hab, hrest⟩ := h
      exact ⟨by rw [hab], ih bs hrest⟩

lemma hasSubList_map (f : Char → Char) (pat : List Char) :
    ∀ t, hasSubList pat t = true → hasSubList (pat.map f) (t.map f) = true := by
  intro t
  induction t with
  | nil =>
    intro h
    simpa [hasSubList] using leadsList_map f pat [] h
  | cons c rest ih =>
    intro h
    simp [hasSubList, Bool.or_eq_true] at h ⊢
    rcases h with h | h
    · exact Or.inl (by simpa using leadsList_map f pat (c :: rest) h)
    · exact Or.inr (ih h)

lemma sensitive_imp_insensitive (path : String) :
    urlCaseSensitiveTest path = true → urlCaseInsensitiveTest path = true := by
  intro h
  have h2 := hasSubList_map asciiLower "/api/v1/".data path.data h
  have hpat : "/api/v1/".data.map asciiLower = "/api/v1/".data := by decide
  rw [hpat] at h2
  exact h2

lemma email_of_findOneByEmail_some {s : UserStore} {e : String} {u : FlowiseUser}
    (h : findOneByEmail s e = some u) : u.email = e ∧ u ∈ s := by
  unfold findOneByEmail at h
  have h1 := List.find?_some h
  have h2 := List.mem_of_find?_eq_some h
  exact ⟨by simpa using h1, h2⟩

lemma any_eq_false_of_findOneByEmail_none {s : UserStore} {e : String}
    (h : findOneByEmail s e = none) : s.any (fun u => u.email == e) = false := by
  unfold findOneByEmail at h
  rw [List.find?_eq_none] at h
  rw [List.any_eq_false]
  intro u hu
  exact h u hu

/-- Run sequentially, findOrCreateUserByEmail always succeeds and returns a
record whose email is the requested one. -/
lemma findOrCreate_total (s : UserStore) (e : String) (now : Nat) :
    ∃ u s', findOrCreateUserByEmail s e now = .ok (u, s') ∧ u.email = e := by
  unfold findOrCreateUserByEmail
  cases h : findOneByEmail s e with
  | some u =>
    exact ⟨u, s, rfl, (email_of_findOneByEmail_some h).1⟩
  | none =>
    refine ⟨⟨s.length, e, now, now⟩, s ++ [⟨s.length, e, now, now⟩], ?_, rfl⟩
    unfold saveNewUser
    rw [any_eq_false_of_findOneByEmail_none h]
    simp

/-- Request headers read by the gate.  The middleware reads only
x-forwarded-email (index.ts line 234); the authorization header is carried
so that independence from it can be stated.  A field value of none models
an absent header. -/
structure Headers where
  xForwardedEmail : Option String
  authHeader : Option String

/-- Terminal outcome of the middleware for one request: either next() was
called (the request proceeds), or a JSON error response with the given
status and error message was sent. -/
inductive Decision
  | next
  | respond (status : Nat) (error : String)

/-- Shape of the Express.User value the middleware builds
(index.ts lines 239-264). -/
structure LoggedInUser where
  id : Nat
  email : String
  isAuthenticatedByHeader : Bool
  name : String
  roleId : String
  activeOrganizationId : String
  activeOrganizationSubscriptionId : String
  activeOrganizationCustomerId : String
  activeOrganizationProductId : String
  isOrganizationAdmin : Bool
  activeWorkspaceId : String
  activeWorkspace : String
  assignedWorkspaces : List String
  isApiKeyValidated : Bool
  permissions : List String
  features : List (String × String)
  ssoRefreshToken : Option String
  ssoToken : Option String
  ssoProvider : Option String

/-- The loggedInUserShape literal of index.ts lines 239-264, built from the
FlowiseUser record returned by the service. -/
def mkHeaderUser (u : FlowiseUser) : LoggedInUser :=
  { id := u.id
    email := u.email
    isAuthenticatedByHeader := true
    name := u.email
    roleId := ""
    activeOrganizationId := ""
    activeOrganizationSubscriptionId := ""
    activeOrganizationCustomerId := ""
    activeOrganizationProductId := ""
    isOrganizationAdmin := false
    activeWorkspaceId := ""
    activeWorkspace := ""
    assignedWorkspaces := []
    isApiKeyValidated := false
    permissions := []
    features := []
    ssoRefreshToken := none
    ssoToken := none
    ssoProvider := none }

/-- Observable outcome of one middleware run: the decision, the req.user
attachment (none when the middleware never assigned it), the emails passed
to findOrCreateUserByEmail in order, the number of invocations of a
bearer-token validation capability (the simplified middleware contains no
such call), and the resulting user store. -/
structure GateResult where
  decision : Decision
  reqUser : Option LoggedInUser
  storeCalls : List String
  bearerValidations : Nat
  store : UserStore

/-- Embedding of the simplified authentication middleware
(index.ts lines 225-281).  backendFails models the storage backend
throwing on the awaited service call, which the try/catch of lines 236-270
turns into the 500 response.  The whitelist is the WHITELIST_URLS
constant, passed as a parameter; the whitelist test is
whitelistURLs.some(url leading req.path) as on line 228.  The header
lookup models req.headers, where an absent header reads as undefined and
the truthiness test of line 235 fails for undefined and for the empty
string alike. -/
def authMiddleware (whitelist : List String) (path : String) (headers : Headers)
    (store : UserStore) (backendFails : Bool) (now : Nat) : GateResult :=
  if urlCaseInsensitiveTest path then
    if urlCaseSensitiveTest path then
      if whitelist.any (fun url => leadsList url.data path.data) then
        { decision := .next, reqUser := none, storeCalls := [],
          bearerValidations := 0, store := store }
      else
        let forwardedEmail := headers.xForwardedEmail.getD ""
        if forwardedEmail ≠ "" then
          if backendFails then
            { decision := .respond 500 "Internal Server Error during authentication",
              reqUser := none, storeCalls := [forwardedEmail],
              bearerValidations := 0, store := store }
          else
            match findOrCreateUserByEmail store forwardedEmail now with
            | .ok (u, store') =>
              { decision := .next, reqUser := some (mkHeaderUser u),
                storeCalls := [forwardedEmail], bearerValidations := 0, store := store' }
            | .error _ =>
              { decision := .respond 500 "Internal Server Error during authentication",
                reqUser := none, storeCalls := [forwardedEmail],
                bearerValidations := 0, store := store }
        else
          { decision := .respond 401 "Unauthorized: X-Forwarded-Email header is required",
            reqUser := none, storeCalls := [], bearerValidations := 0, store := store }
    else
      { decision := .respond 401 "Unauthorized Access - Invalid Path Structure",
        reqUser := none, storeCalls := [], bearerValidations := 0, store := store }
  else
    { decision := .next, reqUser := none, storeCalls := [],
      bearerValidations := 0, store := store }

lemma gate_notInScope (whitelist : List String) (path : String) (headers : Headers)
    (store : UserStore) (backendFails : Bool) (now : Nat)
    (h : urlCaseInsensitiveTest path = false) :
    authMiddleware whitelist path headers store backendFails now =
      { decision := .next, reqUser := none, storeCalls := [],
        bearerValidations := 0, store := store } := by
  unfold authMiddleware
  rw [h]
  simp

lemma gate_caseMismatch (whitelist : List String) (path : String) (headers : Headers)
    (store : UserStore) (backendFails : Bool) (now : Nat)
    (hi : urlCaseInsensitiveTest path = true)
    (hs : urlCaseSensitiveTest path = false) :
    authMiddleware whitelist path headers store backendFails now =
      { decision := .respond 401 "Unauthorized Access - Invalid Path Structure",
        reqUser := none, storeCalls := [], bearerValidations := 0, store := store } := by
  unfold authMiddleware
  rw [hi, hs]
  simp

lemma gate_whitelisted (whitelist : List String) (path : String) (headers : Headers)
    (store : UserStore) (backendFails : Bool) (now : Nat)
    (hs : urlCaseSensitiveTest path = true)
    (hw : whitelist.any (fun url => leadsList url.data path.data) = true) :
    authMiddleware whitelist path headers store backendFails now =
      { decision := .next, reqUser := none, storeCalls := [],
        bearerValidations := 0, store := store } := by
  unfold authMiddleware
  rw [sensitive_imp_insensitive path hs, hs, hw]
  simp

lemma gate_missingHeader (whitelist : List String) (path : String) (headers : Headers)
    (store : UserStore) (backendFails : Bool) (now : Nat)
    (hs : urlCaseSensitiveTest path = true)
    (hw : whitelist.any (fun url => leadsList url.data path.data) = false)
    (he : headers.xForwardedEmail.getD "" = "") :
    authMiddleware whitelist path headers store backendFails now =
      { decision := .respond 401 "Unauthorized: X-Forwarded-Email header is required",
        reqUser := none, storeCalls := [], bearerValidations := 0, store := store } := by
  unfold authMiddleware
  rw [sensitive_imp_insensitive path hs, hs, hw, he]
  simp

lemma gate_backendFail (whitelist : List String) (path : String) (headers : Headers)
    (store : UserStore) (now : Nat) (fe : String)
    (hs : urlCaseSensitiveTest path = true)
    (hw : whitelist.any (fun url => leadsList url.data path.data) = false)
    (he : headers.xForwardedEmail = some fe) (hfe : fe ≠ "") :
    authMiddleware whitelist path headers store true now =
      { decision := .respond 500 "Internal Server Error during authentication",
        reqUser := none, storeCalls := [fe], bearerValidations := 0, store := store } := by
  unfold authMiddleware
  rw [sensitive_imp_insensitive path hs, hs, hw]
  simp [he, hfe]

lemma gate_headerSuccess (whitelist : List String) (path : String) (headers : Headers)
    (store : UserStore) (now : Nat) (fe : String)
    (hs : urlCaseSensitiveTest path = true)
    (hw : whitelist.any (fun url => leadsList url.data path.data) = false)
    (he : headers.xForwardedEmail = some fe) (hfe : fe ≠ "") :
    ∃ u store',
      findOrCreateUserByEmail store fe now = .ok (u, store') ∧ u.email = fe ∧
      authMiddleware whitelist path headers store false now =
        { decision := .next, reqUser := some (mkHeaderUser u),
          storeCalls := [fe], bearerValidations := 0, store := store' } := by
  obtain ⟨u, store', hok, hmail⟩ := findOrCreate_total store fe now
  refine ⟨u, store', hok, hmail, ?_⟩
  unfold authMiddleware
  rw [sensitive_imp_insensitive path hs, hs, hw]
  simp [he, hfe, hok]

lemma gate_bearerValidations_zero (whitelist : List String) (path : String)
    (headers : Headers) (store : UserStore) (backendFails : Bool) (now : Nat) :
    (authMiddleware whitelist path headers store backendFails now).bearerValidations = 0 := by
  unfold authMiddleware
  dsimp only
  repeat' split
  all_goals rfl

/-- C1: on an in-scope (case-sensitive "/api/v1/" match), non-whitelisted
path with a non-empty X-Forwarded-Email header, when the store call
succeeds the gate calls findOrCreateUserByEmail exactly once with the
header value, calls next(), and attaches a req.user whose email is the
header value, whose isAuthenticatedByHeader flag is true, and whose
organization/workspace/role/permission fields are all
empty/false/absent. -/
theorem claim_C1 (whitelist : List String) (path : String) (headers : Headers)
    (store : UserStore) (now : Nat) (fe : String)
    (hs : urlCaseSensitiveTest path = true)
    (hw : whitelist.any (fun url => leadsList url.data path.data) = false)
    (he : headers.xForwardedEmail = some fe) (hfe : fe ≠ "") :
    ∃ lu store',
      authMiddleware whitelist path headers store false now =
        { decision := .next, reqUser := some lu, storeCalls := [fe],
          bearerValidations := 0, store := store' } ∧
      lu.email = fe ∧ lu.isAuthenticatedByHeader = true ∧
      lu.roleId = "" ∧ lu.activeOrganizationId = "" ∧
      lu.activeOrganizationSubscriptionId = "" ∧
      lu.activeOrganizationCustomerId = "" ∧
      lu.activeOrganizationProductId = "" ∧ lu.isOrganizationAdmin = false ∧
      lu.activeWorkspaceId = "" ∧ lu.activeWorkspace = "" ∧
      lu.assignedWorkspaces = [] ∧ lu.permissions = [] ∧ lu.features = [] ∧
      lu.isApiKeyValidated = false ∧ lu.ssoRefreshToken = none ∧
      lu.ssoToken = none ∧ lu.ssoProvider = none := by
  obtain ⟨u, store', _, hmail, hgate⟩ :=
    gate_headerSuccess whitelist path headers store now fe hs hw he hfe
  refine ⟨mkHeaderUser u, store', hgate, ?_⟩
  simp [mkHeaderUser, hmail]

theorem claim_C1_witness :
    ∃ lu store',
      authMiddleware [] "/api/v1/chatflows"
          { xForwardedEmail := some "new.user@example.com", authHeader := none }
          [] false 0 =
        { decision := .next, reqUser := some lu,
          storeCalls := ["new.user@example.com"],
          bearerValidations := 0, store := store' } ∧
      lu.email = "new.user@example.com" ∧ lu.isAuthenticatedByHeader = true := by
  obtain ⟨lu, store', h1, h2, h3, _⟩ :=
    claim_C1 [] "/api/v1/chatflows"
      { xForwardedEmail := some "new.user@example.com", authHeader := none }
      [] 0 "new.user@example.com" (by decide) rfl rfl (by decide)
  exact ⟨lu, store', h1, h2, h3⟩

/-- C4: on an in-scope, non-whitelisted path with an absent or empty
X-Forwarded-Email header, the gate responds 401 with exactly the message
"Unauthorized: X-Forwarded-Email header is required", attaches no user,
and never calls the store (no store call recorded and the store is
returned unchanged). -/
theorem claim_C4 (whitelist : List String) (path : String) (headers : Headers)
    (store : UserStore) (backendFails : Bool) (now : Nat)
    (hs : urlCaseSensitiveTest path = true)
    (hw : whitelist.any (fun url => leadsList url.data path.data) = false)
    (he : headers.xForwardedEmail.getD "" = "") :
    authMiddleware whitelist path headers store backendFails now =
      { decision := .respond 401 "Unauthorized: X-Forwarded-Email header is required",
        reqUser := none, storeCalls := [], bearerValidations := 0, store := store } :=
  gate_missingHeader whitelist path headers store backendFails now hs hw he

theorem claim_C4_witness :
    authMiddleware [] "/api/v1/chatflows"
        { xForwardedEmail := none, authHeader := none } [] false 0 =
      { decision := .respond 401 "Unauthorized: X-Forwarded-Email header is required",
        reqUser := none, storeCalls := [], bearerValidations := 0, store := [] } :=
  claim_C4 [] "/api/v1/chatflows"
    { xForwardedEmail := none, authHeader := none } [] false 0
    (by decide) rfl rfl

/-- C5: on a protected path carrying a non-empty forwarded-identity
header, the gate's whole observable outcome is the same for any two values
of the authorization header, and the bearer-token validation capability is
invoked zero times. -/
theorem claim_C5 (whitelist : List String) (path : String) (store : UserStore)
    (backendFails : Bool) (now : Nat) (fe : String) (auth1 auth2 : Option String)
    (_hs : urlCaseSensitiveTest path = true)
    (_hw : whitelist.any (fun url => leadsList url.data path.data) = false)
    (_hfe : fe ≠ "") :
    authMiddleware whitelist path
        { xForwardedEmail := some fe, authHeader := auth1 } store backendFails now =
      authMiddleware whitelist path
        { xForwardedEmail := some fe, authHeader := auth2 } store backendFails now ∧
    (authMiddleware whitelist path
        { xForwardedEmail := some fe, authHeader := auth1 }
        store backendFails now).bearerValidations = 0 :=
  ⟨rfl, gate_bearerValidations_zero whitelist path
    { xForwardedEmail := some fe, authHeader := auth1 } store backendFails now⟩

theorem claim_C5_witness :
    authMiddleware [] "/api/v1/chatflows"
        { xForwardedEmail := some "user@example.com", authHeader := none } [] false 0 =
      authMiddleware [] "/api/v1/chatflows"
        { xForwardedEmail := some "user@example.com",
          authHeader := some "Bearer valid-api-key" } [] false 0 ∧
    (authMiddleware [] "/api/v1/chatflows"
        { xForwardedEmail := some "user@example.com", authHeader := none }
        [] false 0).bearerValidations = 0 :=
  claim_C5 [] "/api/v1/chatflows" [] false 0 "user@example.com"
    none (some "Bearer valid-api-key") (by decide) rfl (by decide)

/-- C6: a path matching the "/api/v1/" pattern case-insensitively but not
case-sensitively is denied with 401 and exactly the message
"Unauthorized Access - Invalid Path Structure" — a message distinct from
the missing-credential message — for every whitelist, header set and store,
with no store call, no attached user, and the store unchanged. -/
theorem claim_C6 (path : String)
    (hi : urlCaseInsensitiveTest path = true)
    (hs : urlCaseSensitiveTest path = false) :
    (∀ whitelist headers store backendFails now,
      authMiddleware whitelist path headers store backendFails now =
        { decision := .respond 401 "Unauthorized Access - Invalid Path Structure",
          reqUser := none, storeCalls := [], bearerValidations := 0, store := store }) ∧
    "Unauthorized Access - Invalid Path Structure" ≠
      "Unauthorized: X-Forwarded-Email header is required" :=
  ⟨fun whitelist headers store backendFails now =>
    gate_caseMismatch whitelist path headers store backendFails now hi hs,
   by decide⟩

theorem claim_C6_witness :
    authMiddleware [] "/API/v1/chatflows"
        { xForwardedEmail := some "user@example.com", authHeader := none } [] false 0 =
      { decision := .respond 401 "Unauthorized Access - Invalid Path Structure",
        reqUser := none, storeCalls := [], bearerValidations := 0, store := [] } :=
  (claim_C6 "/API/v1/chatflows" (by decide) (by decide)).1 []
    { xForwardedEmail := some "user@example.com", authHeader := none } [] false 0

/-- C7: on an in-scope, non-whitelisted path with a non-empty forwarded
email, when the store call fails the gate responds 500 with exactly the
message "Internal Server Error during authentication", attaches no user,
makes exactly one store attempt (no inline retry), and leaves the store
unchanged. -/
theorem claim_C7 (whitelist : List String) (path : String) (headers : Headers)
    (store : UserStore) (now : Nat) (fe : String)
    (hs : urlCaseSensitiveTest path = true)
    (hw : whitelist.any (fun url => leadsList url.data path.data) = false)
    (he : headers.xForwardedEmail = some fe) (hfe : fe ≠ "") :
    authMiddleware whitelist path headers store true now =
      { decision := .respond 500 "Internal Server Error during authentication",
        reqUser := none, storeCalls := [fe], bearerValidations := 0, store := store } :=
  gate_backendFail whitelist path headers store now fe hs hw he hfe

theorem claim_C7_witness :
    authMiddleware [] "/api/v1/chatflows"
        { xForwardedEmail := some "user@example.com", authHeader := none } [] true 0 =
      { decision := .respond 500 "Internal Server Error during authentication",
        reqUser := none, storeCalls := ["user@example.com"],
        bearerValidations := 0, store := [] } :=
  claim_C7 [] "/api/v1/chatflows"
    { xForwardedEmail := some "user@example.com", authHeader := none }
    [] 0 "user@example.com" (by decide) rfl rfl (by decide)

/-- C8: a path that does not match the in-scope pattern is passed through
with next(), and an in-scope path starting with a whitelisted prefix is
passed through with next(); in both cases no store call is made, no user
is attached, and the store is unchanged. -/
theorem claim_C8 :
    (∀ whitelist path headers store backendFails now,
      urlCaseInsensitiveTest path = false →
      authMiddleware whitelist path headers store backendFails now =
        { decision := .next, reqUser := none, storeCalls := [],
          bearerValidations := 0, store := store }) ∧
    (∀ whitelist path headers store backendFails now,
      urlCaseSensitiveTest path = true →
      whitelist.any (fun url => leadsList url.data path.data) = true →
      authMiddleware whitelist path headers store backendFails now =
        { decision := .next, reqUser := none, storeCalls := [],
          bearerValidations := 0, store := store }) :=
  ⟨fun whitelist path headers store backendFails now h =>
    gate_notInScope whitelist path headers store backendFails now h,
   fun whitelist path headers store backendFails now hs hw =>
    gate_whitelisted whitelist path headers store backendFails now hs hw⟩

theorem claim_C8_witness :
    authMiddleware ["/api/v1/marketplaces"] "/assets/logo.png"
        { xForwardedEmail := none, authHeader := none } [] false 0 =
      { decision := .next, reqUser := none, storeCalls := [],
        bearerValidations := 0, store := [] } ∧
    authMiddleware ["/api/v1/marketplaces"] "/api/v1/marketplaces/chatflows"
        { xForwardedEmail := none, authHeader := none } [] false 0 =
      { decision := .next, reqUser := none, storeCalls := [],
        bearerValidations := 0, store := [] } :=
  ⟨claim_C8.1 ["/api/v1/marketplaces"] "/assets/logo.png"
      { xForwardedEmail := none, authHeader := none } [] false 0 (by decide),
   claim_C8.2 ["/api/v1/marketplaces"] "/api/v1/marketplaces/chatflows"
      { xForwardedEmail := none, authHeader := none } [] false 0
      (by decide) (by decide)⟩

/-- C9 (amended): a req.user is attached only when the gate called next(),
never on any response path, and only through the header-identity branch
(the recorded store call is exactly the forwarded email and the attached
user carries isAuthenticatedByHeader = true); an allow for an out-of-scope
or whitelisted path attaches nothing. -/
theorem claim_C9 (whitelist : List String) (path : String) (headers : Headers)
    (store : UserStore) (backendFails : Bool) (now : Nat) :
    (∀ lu,
      (authMiddleware whitelist path headers store backendFails now).reqUser = some lu →
      (authMiddleware whitelist path headers store backendFails now).decision =
        Decision.next ∧
      (authMiddleware whitelist path headers store backendFails now).storeCalls =
        [headers.xForwardedEmail.getD ""] ∧
      lu.isAuthenticatedByHeader = true) ∧
    (∀ st msg,
      (authMiddleware whitelist path headers store backendFails now).decision =
        Decision.respond st msg →
      (authMiddleware whitelist path headers store backendFails now).reqUser = none) := by
  by_cases hi : urlCaseInsensitiveTest path = true
  · by_cases hs : urlCaseSensitiveTest path = true
    · by_cases hw : whitelist.any (fun url => leadsList url.data path.data) = true
      · rw [gate_whitelisted whitelist path headers store backendFails now hs hw]
        exact ⟨fun lu h => Option.noConfusion h,
               fun st msg h => Decision.noConfusion h⟩
      · have hw' : whitelist.any (fun url => leadsList url.data path.data) = false := by
          simpa using hw
        by_cases he : headers.xForwardedEmail.getD "" = ""
        · rw [gate_missingHeader whitelist path headers store backendFails now hs hw' he]
          exact ⟨fun lu h => Option.noConfusion h, fun st msg h => rfl⟩
        · obtain ⟨fe, hfe_eq⟩ : ∃ fe, headers.xForwardedEmail = some fe := by
            cases hxe : headers.xForwardedEmail with
            | none => exact absurd (by rw [hxe]; rfl) he
            | some x => exact ⟨x, rfl⟩
          have hfe : fe ≠ "" := by rw [hfe_eq] at he; simpa using he
          have hgetD : headers.xForwardedEmail.getD "" = fe := by rw [hfe_eq]; rfl
          cases backendFails with
          | true =>
            rw [gate_backendFail whitelist path headers store now fe hs hw' hfe_eq hfe]
            exact ⟨fun lu h => Option.noConfusion h, fun st msg h => rfl⟩
          | false =>
            obtain ⟨u, store', _, _, hgate⟩ :=
              gate_headerSuccess whitelist path headers store now fe hs hw' hfe_eq hfe
            rw [hgate]
            constructor
            · intro lu h
              cases Option.some.inj h
              exact ⟨rfl, by rw [hgetD], rfl⟩
            · intro st msg h
              exact Decision.noConfusion h
    · have hs' : urlCaseSensitiveTest path = false := by simpa using hs
      rw [gate_caseMismatch whitelist path headers store backendFails now hi hs']
      exact ⟨fun lu h => Option.noConfusion h, fun st msg h => rfl⟩
  · have hi' : urlCaseInsensitiveTest path = false := by simpa using hi
    rw [gate_notInScope whitelist path headers store backendFails now hi']
    exact ⟨fun lu h => Option.noConfusion h,
           fun st msg h => Decision.noConfusion h⟩

/-- C9 counterexample to the claim as stated: a not-in-scope path is
allowed through (next() is called) while no identity is attached, so
attachment is not equivalent to an allow decision. -/
theorem claim_C9_counterexample :
    (authMiddleware [] "/assets/logo.png"
        { xForwardedEmail := none, authHeader := none } [] false 0).decision =
      Decision.next ∧
    (authMiddleware [] "/assets/logo.png"
        { xForwardedEmail := none, authHeader := none } [] false 0).reqUser = none :=
  ⟨rfl, rfl⟩

theorem claim_C9_witness :
    (authMiddleware [] "/api/v1/chatflows"
        { xForwardedEmail := some "user@example.com", authHeader := none }
        [] false 0).decision = Decision.next ∧
    (authMiddleware [] "/api/v1/chatflows"
        { xForwardedEmail := none, authHeader := none } [] false 0).reqUser = none := by
  constructor
  · exact ((claim_C9 [] "/api/v1/chatflows"
      { xForwardedEmail := some "user@example.com", authHeader := none } [] false 0).1
      (mkHeaderUser { id := 0, email := "user@example.com", createdDate := 0, updatedDate := 0 })
      rfl).1
  · exact (claim_C9 [] "/api/v1/chatflows"
      { xForwardedEmail := none, authHeader := none } [] false 0).2
      401 "Unauthorized: X-Forwarded-Email header is required" rfl

/-- C10: in-scope classification is unanchored substring containment of
"/api/v1/": every path containing it anywhere — also in the middle, as in
/foo/api/v1/bar — is subjected to the credential check (so without the
header it is denied with the missing-header 401), while the bare path
/api/v1 without the trailing slash is passed through anonymously with no
store call for every whitelist, header set and store. -/
theorem claim_C10 :
    (∀ whitelist path store now,
      urlCaseSensitiveTest path = true →
      whitelist.any (fun url => leadsList url.data path.data) = false →
      authMiddleware whitelist path
          { xForwardedEmail := none, authHeader := none } store false now =
        { decision := .respond 401 "Unauthorized: X-Forwarded-Email header is required",
          reqUser := none, storeCalls := [], bearerValidations := 0, store := store }) ∧
    (∀ whitelist headers store backendFails now,
      authMiddleware whitelist "/api/v1" headers store backendFails now =
        { decision := .next, reqUser := none, storeCalls := [],
          bearerValidations := 0, store := store }) :=
  ⟨fun whitelist path store now hs hw =>
    gate_missingHeader whitelist path
      { xForwardedEmail := none, authHeader := none } store false now hs hw rfl,
   fun whitelist headers store backendFails now =>
    gate_notInScope whitelist "/api/v1" headers store backendFails now (by decide)⟩

theorem claim_C10_witness :
    authMiddleware [] "/foo/api/v1/bar"
        { xForwardedEmail := none, authHeader := none } [] false 0 =
      { decision := .respond 401 "Unauthorized: X-Forwarded-Email header is required",
        reqUser := none, storeCalls := [], bearerValidations := 0, store := [] } ∧
    authMiddleware [] "/api/v1"
        { xForwardedEmail := some "user@example.com", authHeader := none } [] false 0 =
      { decision := .next, reqUser := none, storeCalls := [],
        bearerValidations := 0, store := [] } :=
  ⟨claim_C10.1 [] "/foo/api/v1/bar" [] 0 (by decide) rfl,
   claim_C10.2 []
    { xForwardedEmail := some "user@example.com", authHeader := none } [] false 0⟩

lemma countEmail_append (s l : UserStore) (e : String) :
    countEmail (s ++ l) e = countEmail s e + countEmail l e := by
  unfold countEmail
  rw [List.filter_append, List.length_append]

lemma countEmail_le_append (s l : UserStore) (e : String) :
    countEmail s e ≤ countEmail (s ++ l) e := by
  rw [countEmail_append]
  exact Nat.le_add_right _ _

lemma countEmail_pos_of_any {s : UserStore} {e : String}
    (h : s.any (fun u => u.email == e) = true) : 1 ≤ countEmail s e := by
  rw [List.any_eq_true] at h
  obtain ⟨u, hu, hp⟩ := h
  have : u ∈ s.filter (fun u => u.email == e) := List.mem_filter.mpr ⟨hu, hp⟩
  exact List.length_pos.mpr (List.ne_nil_of_mem this)

lemma countEmail_zero_of_any_false {s : UserStore} {e : String}
    (h : s.any (fun u => u.email == e) = false) : countEmail s e = 0 := by
  unfold countEmail
  rw [List.any_eq_false] at h
  rw [List.filter_eq_nil_iff.mpr h]
  rfl

/-- Lookup after a successful findOrCreateUserByEmail finds exactly the
returned record. -/
lemma findOneByEmail_after {s : UserStore} {e : String} {now : Nat}
    {r : FlowiseUser} {s' : UserStore}
    (h : findOrCreateUserByEmail s e now = .ok (r, s')) :
    findOneByEmail s' e = some r := by
  unfold findOrCreateUserByEmail at h
  cases hf : findOneByEmail s e with
  | some u =>
    rw [hf] at h
    injection h with h
    injection h with h1 h2
    rw [← h2, ← h1]
    exact hf
  | none =>
    rw [hf] at h
    unfold saveNewUser at h
    rw [any_eq_false_of_findOneByEmail_none hf] at h
    simp only [Bool.false_eq_true, if_false] at h
    injection h with h
    injection h with h1 h2
    rw [← h2, ← h1]
    unfold findOneByEmail at hf ⊢
    rw [List.find?_append, hf]
    simp [findOneByEmail]

/-- C3: findOrCreateUserByEmail is idempotent over the store state.
First conjunct: when a record with the email exists, the call returns that
record and leaves the store unchanged (nothing created, no field updated).
Second: when none exists, the call appends exactly one new record carrying
that email and returns it.  Third: two sequential calls with the same
email return the very same record (hence the same id), the second leaving
the store unchanged.  Fourth: the call preserves the at-most-one-record-
per-email invariant of the store. -/
theorem claim_C3 :
    (∀ s e now u, findOneByEmail s e = some u →
      findOrCreateUserByEmail s e now = .ok (u, s)) ∧
    (∀ s e now, findOneByEmail s e = none →
      ∃ u, u.email = e ∧
        findOrCreateUserByEmail s e now = .ok (u, s ++ [u])) ∧
    (∀ s e n₁ n₂ r₁ s₁ r₂ s₂,
      findOrCreateUserByEmail s e n₁ = .ok (r₁, s₁) →
      findOrCreateUserByEmail s₁ e n₂ = .ok (r₂, s₂) →
      r₂ = r₁ ∧ s₂ = s₁) ∧
    (∀ s e now r s',
      (∀ e', countEmail s e' ≤ 1) →
      findOrCreateUserByEmail s e now = .ok (r, s') →
      ∀ e', countEmail s' e' ≤ 1) := by
  have hfound : ∀ (s : UserStore) (e : String) (now : Nat) (u : FlowiseUser),
      findOneByEmail s e = some u →
      findOrCreateUserByEmail s e now = .ok (u, s) := by
    intro s e now u h
    unfold findOrCreateUserByEmail
    rw [h]
  have hfresh : ∀ (s : UserStore) (e : String) (now : Nat),
      findOneByEmail s e = none →
      ∃ u, u.email = e ∧
        findOrCreateUserByEmail s e now = .ok (u, s ++ [u]) := by
    intro s e now h
    refine ⟨⟨s.length, e, now, now⟩, rfl, ?_⟩
    unfold findOrCreateUserByEmail
    rw [h]
    unfold saveNewUser
    rw [any_eq_false_of_findOneByEmail_none h]
    simp
  refine ⟨hfound, hfresh, ?_, ?_⟩
  · intro s e n₁ n₂ r₁ s₁ r₂ s₂ h₁ h₂
    have hf := findOneByEmail_after h₁
    rw [hfound s₁ e n₂ r₁ hf] at h₂
    injection h₂ with h₂
    injection h₂ with ha hb
    exact ⟨ha.symm, hb.symm⟩
  · intro s e now r s' hinv h
    unfold findOrCreateUserByEmail at h
    cases hf : findOneByEmail s e with
    | some u =>
      rw [hf] at h
      injection h with h
      injection h with _ h2
      rw [← h2]
      exact hinv
    | none =>
      rw [hf] at h
      unfold saveNewUser at h
      rw [any_eq_false_of_findOneByEmail_none hf] at h
      simp only [Bool.false_eq_true, if_false] at h
      injection h with h
      injection h with _ h2
      rw [← h2]
      intro e'
      rw [countEmail_append]
      by_cases he' : e' = e
      · subst he'
        have h0 : countEmail s e' = 0 :=
          countEmail_zero_of_any_false (any_eq_false_of_findOneByEmail_none hf)
        rw [h0]
        simp [countEmail]
      · have h1 : countEmail [(⟨s.length, e, now, now⟩ : FlowiseUser)] e' = 0 := by
          simp only [countEmail, List.filter, List.length]
          have : ((⟨s.length, e, now, now⟩ : FlowiseUser).email == e') = false := by
            simp only [beq_eq_false_iff_ne, ne_eq]
            exact fun hc => he' hc.symm
          rw [this]
          rfl
        rw [h1]
        simpa using hinv e'

theorem claim_C3_witness :
    findOrCreateUserByEmail
        [{ id := 7, email := "existing.user@example.com", createdDate := 1, updatedDate := 2 }]
        "existing.user@example.com" 5 =
      .ok ({ id := 7, email := "existing.user@example.com", createdDate := 1, updatedDate := 2 },
        [{ id := 7, email := "existing.user@example.com", createdDate := 1, updatedDate := 2 }]) ∧
    ∃ u, u.email = "new.user@example.com" ∧
      findOrCreateUserByEmail [] "new.user@example.com" 3 = .ok (u, [] ++ [u]) :=
  ⟨claim_C3.1
      [{ id := 7, email := "existing.user@example.com", createdDate := 1, updatedDate := 2 }]
      "existing.user@example.com" 5
      { id := 7, email := "existing.user@example.com", createdDate := 1, updatedDate := 2 } rfl,
   claim_C3.2.1 [] "new.user@example.com" 3 rfl⟩

/-- Phase of one in-flight findOrCreateUserByEmail call, split at its two
storage round-trips: before the findOneBy read, after a miss and before
the save, and completed with the call's outcome. -/
inductive CallPhase
  | start
  | willCreate
  | done (r : Except StoreError FlowiseUser)

/-- One storage round-trip of an in-flight call against the shared store:
the findOneBy read, or the save (which the unique constraint may reject,
in which case the error propagates out of the service uncaught). -/
def stepCall (e : String) (now : Nat) (ph : CallPhase) (s : UserStore) :
    CallPhase × UserStore :=
  match ph with
  | .start =>
    match findOneByEmail s e with
    | some u => (.done (.ok u), s)
    | none => (.willCreate, s)
  | .willCreate =>
    match saveNewUser s e now with
    | .ok (u, s') => (.done (.ok u), s')
    | .error err => (.done (.error err), s)
  | .done r => (.done r, s)

/-- Two concurrent calls for the same email over the shared store. -/
structure RaceState where
  store : UserStore
  c0 : CallPhase
  c1 : CallPhase

/-- Execute one storage round-trip of the chosen call. -/
def stepRace (e : String) (now : Nat) (st : RaceState) (i : Bool) : RaceState :=
  if i then
    { store := (stepCall e now st.c1 st.store).2, c0 := st.c0,
      c1 := (stepCall e now st.c1 st.store).1 }
  else
    { store := (stepCall e now st.c0 st.store).2,
      c0 := (stepCall e now st.c0 st.store).1, c1 := st.c1 }

/-- Both calls start before either storage round-trip ran, on a store with
no record for the raced email. -/
def initRace : RaceState := { store := [], c0 := .start, c1 := .start }

/-- Interleaved execution of the two racing first-time calls under an
arbitrary schedule. -/
def runRace (e : String) (now : Nat) (sched : List Bool) : RaceState :=
  sched.foldl (stepRace e now) initRace

/-- Per-call invariant: a completed successful call returned a record with
the raced email that is in the store, and a completed failed call failed
with the uniqueness violation while a record with the email was
persisted. -/
def taskInv (e : String) (s : UserStore) : CallPhase → Prop
  | .start => True
  | .willCreate => True
  | .done (.ok u) => u.email = e ∧ u ∈ s
  | .done (.error err) => err = .uniqueViolation ∧ 1 ≤ countEmail s e

/-- Race invariant: at most one record with the raced email is ever
persisted, and both calls satisfy their per-call invariant. -/
def raceInv (e : String) (st : RaceState) : Prop :=
  countEmail st.store e ≤ 1 ∧ taskInv e st.store st.c0 ∧ taskInv e st.store st.c1

lemma taskInv_append (e : String) (s l : UserStore) (ph : CallPhase)
    (h : taskInv e s ph) : taskInv e (s ++ l) ph := by
  cases ph with
  | start => trivial
  | willCreate => trivial
  | done r =>
    cases r with
    | ok u => exact ⟨h.1, List.mem_append_left _ h.2⟩
    | error err => exact ⟨h.1, le_trans h.2 (countEmail_le_append s l e)⟩

lemma stepCall_inv (e : String) (now : Nat) (ph : CallPhase) (s : UserStore)
    (hc : countEmail s e ≤ 1) (h : taskInv e s ph) :
    countEmail (stepCall e now ph s).2 e ≤ 1 ∧
    taskInv e (stepCall e now ph s).2 (stepCall e now ph s).1 ∧
    ((stepCall e now ph s).2 = s ∨ ∃ u, (stepCall e now ph s).2 = s ++ [u]) := by
  cases ph with
  | start =>
    cases hf : findOneByEmail s e with
    | some u =>
      have hstep : stepCall e now CallPhase.start s = (CallPhase.done (.ok u), s) := by
        unfold stepCall
        rw [hf]
      rw [hstep]
      exact ⟨hc, email_of_findOneByEmail_some hf, Or.inl rfl⟩
    | none =>
      have hstep : stepCall e now CallPhase.start s = (CallPhase.willCreate, s) := by
        unfold stepCall
        rw [hf]
      rw [hstep]
      exact ⟨hc, trivial, Or.inl rfl⟩
  | willCreate =>
    cases ha : s.any (fun u => u.email == e) with
    | true =>
      have hsv : saveNewUser s e now = .error .uniqueViolation := by
        unfold saveNewUser
        rw [ha]
        rfl
      have hstep : stepCall e now CallPhase.willCreate s =
          (CallPhase.done (.error .uniqueViolation), s) := by
        unfold stepCall
        rw [hsv]
      rw [hstep]
      exact ⟨hc, ⟨rfl, countEmail_pos_of_any ha⟩, Or.inl rfl⟩
    | false =>
      have hsv : saveNewUser s e now =
          .ok (⟨s.length, e, now, now⟩, s ++ [⟨s.length, e, now, now⟩]) := by
        unfold saveNewUser
        rw [ha]
        rfl
      have hstep : stepCall e now CallPhase.willCreate s =
          (CallPhase.done (.ok ⟨s.length, e, now, now⟩),
            s ++ [⟨s.length, e, now, now⟩]) := by
        unfold stepCall
        rw [hsv]
      rw [hstep]
      have h0 : countEmail s e = 0 := countEmail_zero_of_any_false ha
      refine ⟨?_, ⟨rfl, List.mem_append_right _ (by simp)⟩, Or.inr ⟨_, rfl⟩⟩
      rw [countEmail_append, h0]
      simp [countEmail]
  | done r =>
    exact ⟨hc, h, Or.inl rfl⟩

lemma stepRace_inv (e : String) (now : Nat) (st : RaceState) (i : Bool)
    (h : raceInv e st) : raceInv e (stepRace e now st i) := by
  obtain ⟨hc, h0, h1⟩ := h
  cases i with
  | false =>
    obtain ⟨kc, kt, ks⟩ := stepCall_inv e now st.c0 st.store hc h0
    refine ⟨kc, kt, ?_⟩
    show taskInv e (stepCall e now st.c0 st.store).2 st.c1
    rcases ks with hseq | ⟨u, hseq⟩
    · rw [hseq]; exact h1
    · rw [hseq]; exact taskInv_append e st.store [u] st.c1 h1
  | true =>
    obtain ⟨kc, kt, ks⟩ := stepCall_inv e now st.c1 st.store hc h1
    refine ⟨kc, ?_, kt⟩
    show taskInv e (stepCall e now st.c1 st.store).2 st.c0
    rcases ks with hseq | ⟨u, hseq⟩
    · rw [hseq]; exact h0
    · rw [hseq]; exact taskInv_append e st.store [u] st.c0 h0

lemma runRace_inv (e : String) (now : Nat) (sched : List Bool) :
    raceInv e (runRace e now sched) := by
  have step : ∀ (l : List Bool) (st : RaceState),
      raceInv e st → raceInv e (l.foldl (stepRace e now) st) := by
    intro l
    induction l with
    | nil => intro st h; exact h
    | cons i rest ih => intro st h; exact ih _ (stepRace_inv e now st i h)
  apply step
  exact ⟨Nat.zero_le _, trivial, trivial⟩

lemma eq_of_countEmail_le_one {s : UserStore} {e : String} {u v : FlowiseUser}
    (hc : countEmail s e ≤ 1) (hu : u.email = e) (hv : v.email = e)
    (hus : u ∈ s) (hvs : v ∈ s) : u = v := by
  have hu' : u ∈ s.filter (fun w => w.email == e) :=
    List.mem_filter.mpr ⟨hus, by simp [hu]⟩
  have hv' : v ∈ s.filter (fun w => w.email == e) :=
    List.mem_filter.mpr ⟨hvs, by simp [hv]⟩
  unfold countEmail at hc
  cases hl : s.filter (fun w => w.email == e) with
  | nil =>
    rw [hl] at hu'
    cases hu'
  | cons a rest =>
    rw [hl] at hu' hv' hc
    cases rest with
    | nil =>
      rw [List.mem_singleton.mp hu', List.mem_singleton.mp hv']
    | cons b rest2 =>
      simp at hc

/-- C2 (amended): under every interleaving of two first-time calls racing
on the same previously-unseen email, at most one record with that email is
persisted; any two calls that complete successfully return the very same
record with that email; but a call whose create attempt is rejected by the
storage uniqueness constraint completes with the uniqueness violation
surfaced to its caller (the service performs no re-read), while the
winning record stays persisted. -/
theorem claim_C2 (e : String) (now : Nat) (sched : List Bool) :
    countEmail (runRace e now sched).store e ≤ 1 ∧
    (∀ u v, (runRace e now sched).c0 = CallPhase.done (.ok u) →
      (runRace e now sched).c1 = CallPhase.done (.ok v) →
      u = v ∧ u.email = e) ∧
    (∀ err, (runRace e now sched).c0 = CallPhase.done (.error err) →
      err = .uniqueViolation ∧ 1 ≤ countEmail (runRace e now sched).store e) ∧
    (∀ err, (runRace e now sched).c1 = CallPhase.done (.error err) →
      err = .uniqueViolation ∧ 1 ≤ countEmail (runRace e now sched).store e) := by
  obtain ⟨hc, h0, h1⟩ := runRace_inv e now sched
  refine ⟨hc, ?_, ?_, ?_⟩
  · intro u v hu hv
    rw [hu] at h0
    rw [hv] at h1
    exact ⟨eq_of_countEmail_le_one hc h0.1 h1.1 h0.2 h1.2, h0.1⟩
  · intro err herr
    rw [herr] at h0
    exact h0
  · intro err herr
    rw [herr] at h1
    exact h1

/-- C2 counterexample to the claim as stated: in the interleaving where
both racing calls miss on findOneBy before either saves, the first save
persists the record and the second save is rejected by the unique email
constraint; the rejected call completes with the uniqueness violation
surfaced to its caller instead of the persisted record's id. -/
theorem claim_C2_counterexample :
    (runRace "new.user@example.com" 0 [false, true, false, true]).c1 =
      CallPhase.done (.error .uniqueViolation) ∧
    (runRace "new.user@example.com" 0 [false, true, false, true]).c0 =
      CallPhase.done (.ok
        { id := 0, email := "new.user@example.com", createdDate := 0, updatedDate := 0 }) ∧
    (runRace "new.user@example.com" 0 [false, true, false, true]).store =
      [{ id := 0, email := "new.user@example.com", createdDate := 0, updatedDate := 0 }] :=
  ⟨rfl, rfl, rfl⟩

theorem claim_C2_witness :
    StoreError.uniqueViolation = StoreError.uniqueViolation ∧
    1 ≤ countEmail (runRace "new.user@example.com" 0 [false, true, false, true]).store
        "new.user@example.com" :=
  (claim_C2 "new.user@example.com" 0 [false, true, false, true]).2.2.2
    StoreError.uniqueViolation rfl

end FlowiseAuth
